import Mathlib

/-!
Verification development for the age-stratified SEIR-type COVID-19 model in
`covid19_SEIR.py` (functions `RK3`, `get_kronecker_delta`, `select_country`).

The numerical state and all arithmetic are embedded exactly over `ℚ`
(the Python code computes with floats; the claims under study are about the
formulas and branch structure, and the exact-arithmetic claims say so
explicitly).  Age-stratified quantities are `Fin 9 → ℚ`, one entry per age
bin, matching the 9-entry numpy arrays of the source.
-/

namespace Covid19SEIR

/-! ## Module-level input parameters and rate constants
    (source: input block lines 189-196 and timescale block lines 303-332) -/

/-- Length of incubation period, days (`Tincubation = 5.2`). -/
def Tincubation : ℚ := 26/5

/-- Duration patient is infectious, days (`Tinfection = 2.9`). -/
def Tinfection : ℚ := 29/10

/-- Time to hospitalization, days (`Thospitalization = 5.`). -/
def Thospitalization : ℚ := 5

/-- Length of hospital stay, days (`Thospitalized = 10.`). -/
def Thospitalized : ℚ := 10

/-- Time from exposure to death, days (`Tdeath = 14.`). -/
def Tdeath : ℚ := 14

/-- Fraction of exposed that become symptomatic (`p = 0.6`). -/
def p : ℚ := 3/5

/-- Fraction of asymptomatic that cure on their own (`w = 0.8`). -/
def w : ℚ := 4/5

/-- Reproduction-number seed (`R0 = 2.8`, source line 307). -/
def R0 : ℚ := 14/5

/-- Incubation rate `sigma = 1/Tincubation`. -/
def sigma : ℚ := 1 / Tincubation

/-- Infectious-removal rate `gamma = 1/Tinfection`. -/
def gamma : ℚ := 1 / Tinfection

/-- Death rate `mu = 1/Tdeath`. -/
def mu : ℚ := 1 / Tdeath

/-- Hospital-discharge rate `eta = 1/Thospitalized`. -/
def eta : ℚ := 1 / Thospitalized

/-- Hospitalization rate `xi = 1/Thospitalization`. -/
def xi : ℚ := 1 / Thospitalization

/-- Asymptomatic-removal rate `theta = mu` (source line 315). -/
def theta : ℚ := mu

/-- Retardation delay `tmu = Tdeath` (source line 316). -/
def tmu : ℚ := Tdeath

/-- Empirical Dirac-delta amplitude factor `a = 1.575` (source line 318). -/
def a : ℚ := 63/40

/-- Age-stratified fatality rate `.01*np.array([0.002, ..., 9.3])` (line 326). -/
def fatality_rate_age : Fin 9 → ℚ :=
  ![1/50000, 3/50000, 3/10000, 1/1250, 3/2000, 3/500, 11/500, 51/1000, 93/1000]

/-- Age-stratified hospitalization fraction `.01*np.array([0.1, ..., 27.3])` (line 327). -/
def hospitalization_fraction_age : Fin 9 → ℚ :=
  ![1/1000, 3/1000, 3/250, 4/125, 49/1000, 51/500, 83/500, 243/1000, 273/1000]

/-- Age-stratified critical-care fraction `.01*np.array([5, ..., 70.9])` (line 328). -/
def critical_care_age : Fin 9 → ℚ :=
  ![1/20, 1/20, 1/20, 1/20, 63/1000, 61/500, 137/500, 54/125, 709/1000]

/-- Alias `q = hospitalization_fraction_age` (source line 331). -/
def q : Fin 9 → ℚ := hospitalization_fraction_age

/-- Alias `nu = fatality_rate_age` (source line 660, inside `RK3`). -/
def nu : Fin 9 → ℚ := fatality_rate_age

/-- Low-storage RK3 stage coefficients `alpha_ts = [0., -5./9., -153./128.]` (line 652). -/
def alpha_ts : Fin 3 → ℚ := ![0, -5/9, -153/128]

/-- Low-storage RK3 stage coefficients `beta_ts = [1./3., 15./16., 8./15.]` (line 653). -/
def beta_ts : Fin 3 → ℚ := ![1/3, 15/16, 8/15]

/-- Timestep damping constant `Cdt = 0.5` (source line 654). -/
def Cdt : ℚ := 1/2

/-- Initial transmission rate `beta = R0*gamma` (source line 665), the value of the
    variable `beta` at the point where the timestep is fixed. -/
def beta0 : ℚ := R0 * gamma

/-- `tau_beta = 1/beta` (source line 669), evaluated at the pre-loop `beta = R0*gamma`. -/
def tau_beta : ℚ := 1 / beta0

/-- The integration timestep `dt = Cdt*tau_beta` (source line 670).  It is assigned
    once, before the time loop, and never reassigned inside the loop. -/
def dt : ℚ := Cdt * tau_beta

/-! ## numpy primitives used by `RK3` -/

/-- Interior/right-edge worker for `np.gradient` on a non-uniform 1-D grid.
    `fprev, xprev` are the entries one slot to the left of the current head.
    Interior points use numpy's second-order formula for unequal spacing
    (with backward gap `hm` and forward gap `hp`); the last point uses the
    one-sided difference. -/
def npGradientAux (fprev xprev : ℚ) : List ℚ → List ℚ → List ℚ
  | [flast], [xlast] => [(flast - fprev) / (xlast - xprev)]
  | f0 :: f1 :: fs, x0 :: x1 :: xs =>
      let hm := x0 - xprev
      let hp := x1 - x0
      ((hm^2 * f1 + (hp^2 - hm^2) * f0 - hp^2 * fprev) / (hm * hp * (hm + hp))) ::
        npGradientAux f0 x0 (f1 :: fs) (x1 :: xs)
  | _, _ => []

/-- Embedding of `np.gradient(f, x)` for 1-D arrays of equal length at least 2:
    one-sided differences at both edges, second-order interior formula in
    between.  (numpy rejects shorter inputs; those cases return `[]` here and
    are not exercised by any run in this file.) -/
def npGradient (f x : List ℚ) : List ℚ :=
  match f, x with
  | f0 :: f1 :: fs, x0 :: x1 :: xs =>
      (f1 - f0) / (x1 - x0) :: npGradientAux f0 x0 (f1 :: fs) (x1 :: xs)
  | _, _ => []

/-- Embedding of `np.interp(x, xp, fp)` for an increasing sample grid `xp`:
    linear interpolation between neighbouring samples, and (numpy's documented
    behaviour) silent clamping to `fp.head` below the grid and to the last
    sample above it.  A single-sample grid returns that sample everywhere. -/
def npInterp (x : ℚ) : List ℚ → List ℚ → ℚ
  | x0 :: x1 :: xs, f0 :: f1 :: fs =>
      if x ≤ x0 then f0
      else if x ≤ x1 then f0 + (f1 - f0) * (x - x0) / (x1 - x0)
      else npInterp x (x1 :: xs) (f1 :: fs)
  | _ :: _, f0 :: _ => f0
  | _, _ => 0

/-! ## Event impulses (source lines 499-507 and 730-742) -/

/-- Embedding of `get_kronecker_delta(time, t0, tt, ampl, dt)` (source lines
    499-507): `delta = 1.` iff `time - t0 > 0 and tt - t0 < 0`, else `0.`;
    returns `delta*ampl/dt` component-wise. -/
def get_kronecker_delta (time t0 tt : ℚ) (ampl : Fin 9 → ℚ) (dt : ℚ) : Fin 9 → ℚ :=
  let delta : ℚ := if time - t0 > 0 ∧ tt - t0 < 0 then 1 else 0
  fun i => delta * ampl i / dt

/-- Trigger time for the lockdown date (source lines 732-736): a set date is its
    time in days relative to today; the "no data" empty string defaults to `0.`
    ("default to today").  `none` models the empty string. -/
def tlockdownOf : Option ℚ → ℚ
  | some d => d
  | none => 0

/-- Trigger time for the release date (source lines 738-742): a set date is its
    time in days relative to today; the "no data" empty string defaults to
    `1e30` ("default to no release"). -/
def treleaseOf : Option ℚ → ℚ
  | some d => d
  | none => 10^30

/-! ## Per-run configuration (the `country` dict built by `select_country`
    plus the module-level lockdown/release inputs) -/

/-- The per-run inputs consumed by `RK3`: the age pyramid, the death-count
    threshold `D0`, the historical cumulative-deaths series with its day axis
    (days relative to today, ascending), the lockdown/release trigger dates
    (`none` models the `''` "no data" string) and the two precomputed impulse
    amplitude vectors `ampl1 = factor1*a`, `ampl2 = factor2*a`
    (source lines 177-185, 318-320). -/
structure Config where
  pop : Fin 9 → ℚ
  D0 : ℚ
  deaths : List ℚ
  days_past : List ℚ
  lockdownDate : Option ℚ
  releaseDate : Option ℚ
  ampl1 : Fin 9 → ℚ
  ampl2 : Fin 9 → ℚ

/-- Total population `N = np.sum(age)` (source line 594). -/
def Npop (cfg : Config) : ℚ := ∑ i, cfg.pop i

/-- Age-weighted scalar fatality rate
    `fatality_rate = np.sum(fatality_rate_age*age)/np.sum(age)` (source line 595). -/
def fatality_rate (cfg : Config) : ℚ :=
  (∑ i, fatality_rate_age i * cfg.pop i) / Npop cfg

/-- Index of the first day whose cumulative deaths reach `D0`
    (source lines 601-604; falls back to 0 when the series never reaches `D0`). -/
def iD0 (cfg : Config) : ℕ :=
  if cfg.deaths.any (fun d => decide (cfg.D0 ≤ d)) then
    cfg.deaths.findIdx (fun d => decide (cfg.D0 ≤ d))
  else 0

/-- Start time anchor `time_D0 = days_past[index_D0]` (source line 608). -/
def time_D0 (cfg : Config) : ℚ := cfg.days_past.getD (iD0 cfg) 0

/-- The truncated series `cases = deaths[iD0:]` (source line 662). -/
def casesList (cfg : Config) : List ℚ := cfg.deaths.drop (iD0 cfg)

/-- The truncated day axis `tpast = days_past[iD0:]` (source line 663). -/
def tpast (cfg : Config) : List ℚ := cfg.days_past.drop (iD0 cfg)

/-- Historical derivative `dDdt = np.gradient(1.0*cases/N, tpast)` (source line
    664): the death-rate derivative, normalized by total population. -/
def dDdt (cfg : Config) : List ℚ :=
  npGradient ((casesList cfg).map (fun c => c / Npop cfg)) (tpast cfg)

/-- Seed infection fraction `I0 = (D0/N)/fatality_rate` (source line 659). -/
def I0 (cfg : Config) : ℚ := (cfg.D0 / Npop cfg) / fatality_rate cfg

/-- Age-bin population weights `ni = pop/N` (source line 698). -/
def ni (cfg : Config) (i : Fin 9) : ℚ := cfg.pop i / Npop cfg

/-! ## The integrator state -/

/-- Everything `RK3`'s loop carries from one iteration to the next: the nine
    age-stratified compartments, the diagnostic arrays `U` (ICU demand) and `D`,
    the nine low-storage derivative accumulators, the scalar sums `sS, sA, sI`
    (note: `sS` is assigned once before the loop and never updated; `sA, sI`
    are reassigned at the start of every sub-stage), the time accumulator `ds`,
    the current time `t`, the previous recorded time `prevT` (the entry
    `np.array(tt)[it-1]` consulted by the impulse check), and the current
    transmission rate `beta` with its reproduction-number estimate `Rt`. -/
structure RunState where
  S : Fin 9 → ℚ
  C : Fin 9 → ℚ
  E : Fin 9 → ℚ
  A : Fin 9 → ℚ
  I : Fin 9 → ℚ
  Q : Fin 9 → ℚ
  H : Fin 9 → ℚ
  R : Fin 9 → ℚ
  F : Fin 9 → ℚ
  U : Fin 9 → ℚ
  D : Fin 9 → ℚ
  dS : Fin 9 → ℚ
  dC : Fin 9 → ℚ
  dE : Fin 9 → ℚ
  dA : Fin 9 → ℚ
  dI : Fin 9 → ℚ
  dQ : Fin 9 → ℚ
  dH : Fin 9 → ℚ
  dR : Fin 9 → ℚ
  dF : Fin 9 → ℚ
  sS : ℚ
  sA : ℚ
  sI : ℚ
  ds : ℚ
  t : ℚ
  prevT : ℚ
  beta : ℚ
  Rt : ℚ

/-- The initial state (source lines 689-727): seed `I[4] = I0`, every other
    compartment zero, `S = (1-C-E-A-I-Q-H-R-F)*ni`, zeroed accumulators and
    diagnostics, the pre-loop sums, `ds = 0`, start time
    `t = time_D0 - tmu`, `beta = R0*gamma` and `Rt = R0` (the seed entry of
    `RRt`).  `prevT` is `np.array(tt)[-1] = t` as seen by iteration 0. -/
def initState (cfg : Config) : RunState :=
  let Ivec : Fin 9 → ℚ := fun i => if i = 4 then I0 cfg else 0
  let Z : Fin 9 → ℚ := fun _ => 0
  let Svec : Fin 9 → ℚ := fun i =>
    (1 - (Z i + Z i + Z i + Ivec i + Z i + Z i + Z i + Z i)) * ni cfg i
  { S := Svec, C := Z, E := Z, A := Z, I := Ivec, Q := Z, H := Z, R := Z, F := Z
    U := Z, D := Z
    dS := Z, dC := Z, dE := Z, dA := Z, dI := Z, dQ := Z, dH := Z, dR := Z, dF := Z
    sS := ∑ i, Svec i, sA := ∑ i, Z i, sI := ∑ i, Ivec i
    ds := 0, t := time_D0 cfg - tmu, prevT := time_D0 cfg - tmu
    beta := beta0, Rt := R0 }

/-! ## One RK3 sub-stage and one full step (source lines 768-855) -/

/-- One sub-stage of the "advance quantities" loop (source lines 801-849) with
    stage coefficients `al = alpha_ts[itsub]`, `be = beta_ts[itsub]`: recompute
    `sI, sA` from the current state, form the infection force
    `Finf = beta*(sI+sA)`, scale every accumulator by `al`, add the freshly
    evaluated right-hand side (the `dQdt` flow terms are commented out in the
    source, so `dQdt` is only scaled), advance every compartment by
    `dt*beta_ts[itsub]` times its accumulator, then refresh the diagnostics
    `U = H*critical_care_age` and `D = fatality_rate_age*(ni-(S+C))`. -/
def substage (cfg : Config) (al be : ℚ) (psi1 psi2 : Fin 9 → ℚ) (beta : ℚ)
    (st : RunState) : RunState :=
  let sI := ∑ i, st.I i
  let sA := ∑ i, st.A i
  let Finf := beta * (sI + sA)
  let dS' := fun i => al * st.dS i - Finf * st.S i - psi1 i * st.S i + psi2 i * st.C i
  let dC' := fun i => al * st.dC i + psi1 i * st.S i - psi2 i * st.C i
  let dE' := fun i => al * st.dE i + Finf * st.S i - sigma * st.E i
  let dA' := fun i => al * st.dA i + (1 - p) * sigma * st.E i - theta * st.A i
  let dI' := fun i => al * st.dI i + p * sigma * st.E i + (1 - w) * theta * st.A i
    - gamma * st.I i - xi * st.I i
  let dQ' := fun i => al * st.dQ i
  let dH' := fun i => al * st.dH i + q i * xi * st.I i - eta * st.H i
  let dR' := fun i => al * st.dR i + w * theta * st.A i + gamma * st.I i
    + (1 - q i) * xi * st.I i + (1 - nu i) * eta * st.H i
  let dF' := fun i => al * st.dF i + nu i * eta * st.H i
  let S' := fun i => st.S i + dt * be * dS' i
  let C' := fun i => st.C i + dt * be * dC' i
  let E' := fun i => st.E i + dt * be * dE' i
  let A' := fun i => st.A i + dt * be * dA' i
  let I' := fun i => st.I i + dt * be * dI' i
  let Q' := fun i => st.Q i + dt * be * dQ' i
  let H' := fun i => st.H i + dt * be * dH' i
  let R' := fun i => st.R i + dt * be * dR' i
  let F' := fun i => st.F i + dt * be * dF' i
  let U' := fun i => H' i * critical_care_age i
  let D' := fun i => fatality_rate_age i * (ni cfg i - (S' i + C' i))
  { st with
    S := S', C := C', E := E', A := A', I := I', Q := Q', H := H', R := R', F := F'
    U := U', D := D'
    dS := dS', dC := dC', dE := dE', dA := dA', dI := dI', dQ := dQ', dH := dH', dR := dR'
    dF := dF'
    sA := sA, sI := sI }

/-- The lockdown impulse consulted at the top of each iteration (source line 770):
    `psi1 = get_kronecker_delta(t, tlockdown, np.array(tt)[it-1], ampl1, dt)`. -/
def RK3psi1 (cfg : Config) (st : RunState) : Fin 9 → ℚ :=
  get_kronecker_delta st.t (tlockdownOf cfg.lockdownDate) st.prevT cfg.ampl1 dt

/-- The release impulse consulted at the top of each iteration (source line 771):
    `psi2 = get_kronecker_delta(t, trelease, np.array(tt)[it-1], ampl2, dt)`. -/
def RK3psi2 (cfg : Config) (st : RunState) : Fin 9 → ℚ :=
  get_kronecker_delta st.t (treleaseOf cfg.releaseDate) st.prevT cfg.ampl2 dt

/-- The calibration-regime transmission rate actually kept by the source
    (line 782; the preceding line-781 assignment through `smuS` is immediately
    overwritten and has no effect):
    `beta = 1/(sA+sI) * 1/sS * 1/fatality_rate * np.interp(tretarded, tpast, dDdt)`. -/
def RK3betaCalib (sA sI sS fr tret : ℚ) (tp dD : List ℚ) : ℚ :=
  1/(sA + sI) * (1/sS) * (1/fr) * npInterp tret tp dD

/-- The transmission rate selected at the top of each iteration (source lines
    775-790): the calibration formula while the retarded time `t + tmu` is
    negative, otherwise the last value is held (`beta = beta`; the `Tunisia`
    averaging special case is outside this model). -/
def RK3beta (cfg : Config) (st : RunState) : ℚ :=
  if st.t + tmu < 0 then
    RK3betaCalib st.sA st.sI st.sS (fatality_rate cfg) (st.t + tmu) (tpast cfg) (dDdt cfg)
  else st.beta

/-- One full iteration of the `RK3` time loop (source lines 768-855): compute
    both impulses and the regime-selected `beta` and `Rt`, advance the time
    accumulator through the three sub-stages (lines 794-797), advance all
    quantities through the three sub-stages (lines 801-849), and remember the
    pre-step time as the `np.array(tt)[it-1]` entry the next iteration's
    impulse check will consult. -/
def stepIter (cfg : Config) (st : RunState) : RunState :=
  let psi1 := RK3psi1 cfg st
  let psi2 := RK3psi2 cfg st
  let beta' := RK3beta cfg st
  let Rt' := if st.t + tmu < 0 then beta' / gamma else st.Rt
  let ds1 := alpha_ts 0 * st.ds + 1
  let t1 := st.t + dt * beta_ts 0 * ds1
  let ds2 := alpha_ts 1 * ds1 + 1
  let t2 := t1 + dt * beta_ts 1 * ds2
  let ds3 := alpha_ts 2 * ds2 + 1
  let t3 := t2 + dt * beta_ts 2 * ds3
  let st1 := substage cfg (alpha_ts 0) (beta_ts 0) psi1 psi2 beta' st
  let st2 := substage cfg (alpha_ts 1) (beta_ts 1) psi1 psi2 beta' st1
  let st3 := substage cfg (alpha_ts 2) (beta_ts 2) psi1 psi2 beta' st2
  { st3 with t := t3, ds := ds3, prevT := st.t, beta := beta', Rt := Rt' }

/-- The state after `n` completed iterations of the `RK3` loop. -/
def runState (cfg : Config) : ℕ → RunState
  | 0 => initState cfg
  | n + 1 => stepIter cfg (runState cfg n)

/-- The per-bin total of the nine primary compartment fractions (ICU demand `U`
    is derived and excluded). -/
def binSum (st : RunState) (i : Fin 9) : ℚ :=
  st.S i + st.C i + st.E i + st.A i + st.I i + st.Q i + st.H i + st.R i + st.F i

/-- The per-bin total of the nine derivative accumulators. -/
def accSum (st : RunState) (i : Fin 9) : ℚ :=
  st.dS i + st.dC i + st.dE i + st.dA i + st.dI i + st.dQ i + st.dH i + st.dR i + st.dF i

/-! ## Concrete run configurations used by the counterexamples and witnesses -/

/-- A concrete run: uniform age pyramid of 100000 per bin (N = 900000), death
    threshold 1, a two-sample historical series (1 death 14 days ago, 2 today),
    a lockdown date 10 days ago, no release date, and zero impulse amplitudes. -/
def cfg0 : Config :=
  { pop := ![100000, 100000, 100000, 100000, 100000, 100000, 100000, 100000, 100000]
    D0 := 1
    deaths := [1, 2]
    days_past := [-14, 0]
    lockdownDate := some (-10)
    releaseDate := none
    ampl1 := ![0, 0, 0, 0, 0, 0, 0, 0, 0]
    ampl2 := ![0, 0, 0, 0, 0, 0, 0, 0, 0] }

/-- Same run as `cfg0` but with a steep historical death series (1 death
    14 days ago, 500 today), which drives the calibrated transmission rate far
    above the pre-loop value `R0*gamma`. -/
def cfg3 : Config :=
  { pop := ![100000, 100000, 100000, 100000, 100000, 100000, 100000, 100000, 100000]
    D0 := 1
    deaths := [1, 500]
    days_past := [-14, 0]
    lockdownDate := some (-10)
    releaseDate := none
    ampl1 := ![0, 0, 0, 0, 0, 0, 0, 0, 0]
    ampl2 := ![0, 0, 0, 0, 0, 0, 0, 0, 0] }

/-- Same run as `cfg0` but with the lockdown date set to "no data" (the empty
    string, modelled as `none`) and a nonzero lockdown amplitude
    `ampl1 = 0.1*1.575 = 63/400` in every bin. -/
def cfg5 : Config :=
  { pop := ![100000, 100000, 100000, 100000, 100000, 100000, 100000, 100000, 100000]
    D0 := 1
    deaths := [1, 2]
    days_past := [-14, 0]
    lockdownDate := none
    releaseDate := none
    ampl1 := ![63/400, 63/400, 63/400, 63/400, 63/400, 63/400, 63/400, 63/400, 63/400]
    ampl2 := ![0, 0, 0, 0, 0, 0, 0, 0, 0] }

/-- An all-zero integrator state (every compartment, accumulator and scalar 0). -/
def stZero : RunState :=
  { S := fun _ => 0, C := fun _ => 0, E := fun _ => 0, A := fun _ => 0, I := fun _ => 0
    Q := fun _ => 0, H := fun _ => 0, R := fun _ => 0, F := fun _ => 0
    U := fun _ => 0, D := fun _ => 0
    dS := fun _ => 0, dC := fun _ => 0, dE := fun _ => 0, dA := fun _ => 0, dI := fun _ => 0
    dQ := fun _ => 0, dH := fun _ => 0, dR := fun _ => 0, dF := fun _ => 0
    sS := 0, sA := 0, sI := 0, ds := 0, t := 0, prevT := 0, beta := 0, Rt := 0 }

/-! ## Spec-side reference definitions (written from the claim wording, for
    comparison against the source-side definitions above) -/

/-- The calibration-regime transmission rate exactly as claim C2 words it: the
    interpolated historical death-rate derivative at the retarded time, divided
    by the product of the current Symptomatic-plus-Asymptomatic total and the
    age-weighted susceptible fatality sum of the current state.  (This is also
    precisely the dead first assignment on source line 781, which line 782
    immediately overwrites.) -/
def betaSpecC2 (cfg : Config) (st : RunState) : ℚ :=
  npInterp (st.t + tmu) (tpast cfg) (dDdt cfg) /
    ((∑ i, st.I i + ∑ i, st.A i) * (∑ i, fatality_rate_age i * st.S i))

/-- The adaptive timestep exactly as claim C3 words it: 0.5 times the minimum
    of the six inverse rates, evaluated at the transmission rate of the step. -/
def dtSpecC3 (b : ℚ) : ℚ :=
  Cdt * min (1/b) (min (1/sigma) (min (1/eta) (min (1/theta) (min (1/gamma) (1/xi)))))

/-- The impulse exactly as claim C4 words it: fires (returning amplitude over
    step size component-wise) when `time > trigger` and `previous ≤ trigger`
    (boundary included), zero otherwise. -/
def get_kronecker_delta_spec (time t0 tt : ℚ) (ampl : Fin 9 → ℚ) (dt : ℚ) : Fin 9 → ℚ :=
  if time > t0 ∧ tt ≤ t0 then fun i => ampl i / dt else fun _ => 0

/-! ## Projection lemmas (all definitional) -/

lemma substage_S (cfg : Config) (al be : ℚ) (psi1 psi2 : Fin 9 → ℚ) (beta : ℚ)
    (st : RunState) (i : Fin 9) :
    (substage cfg al be psi1 psi2 beta st).S i
      = st.S i + dt * be * (al * st.dS i - beta * ((∑ j, st.I j) + ∑ j, st.A j) * st.S i
          - psi1 i * st.S i + psi2 i * st.C i) := rfl

lemma substage_C (cfg : Config) (al be : ℚ) (psi1 psi2 : Fin 9 → ℚ) (beta : ℚ)
    (st : RunState) (i : Fin 9) :
    (substage cfg al be psi1 psi2 beta st).C i
      = st.C i + dt * be * (al * st.dC i + psi1 i * st.S i - psi2 i * st.C i) := rfl

lemma substage_E (cfg : Config) (al be : ℚ) (psi1 psi2 : Fin 9 → ℚ) (beta : ℚ)
    (st : RunState) (i : Fin 9) :
    (substage cfg al be psi1 psi2 beta st).E i
      = st.E i + dt * be * (al * st.dE i + beta * ((∑ j, st.I j) + ∑ j, st.A j) * st.S i
          - sigma * st.E i) := rfl

lemma substage_A (cfg : Config) (al be : ℚ) (psi1 psi2 : Fin 9 → ℚ) (beta : ℚ)
    (st : RunState) (i : Fin 9) :
    (substage cfg al be psi1 psi2 beta st).A i
      = st.A i + dt * be * (al * st.dA i + (1 - p) * sigma * st.E i - theta * st.A i) := rfl

lemma substage_I (cfg : Config) (al be : ℚ) (psi1 psi2 : Fin 9 → ℚ) (beta : ℚ)
    (st : RunState) (i : Fin 9) :
    (substage cfg al be psi1 psi2 beta st).I i
      = st.I i + dt * be * (al * st.dI i + p * sigma * st.E i + (1 - w) * theta * st.A i
          - gamma * st.I i - xi * st.I i) := rfl

lemma substage_Q (cfg : Config) (al be : ℚ) (psi1 psi2 : Fin 9 → ℚ) (beta : ℚ)
    (st : RunState) (i : Fin 9) :
    (substage cfg al be psi1 psi2 beta st).Q i = st.Q i + dt * be * (al * st.dQ i) := rfl

lemma substage_H (cfg : Config) (al be : ℚ) (psi1 psi2 : Fin 9 → ℚ) (beta : ℚ)
    (st : RunState) (i : Fin 9) :
    (substage cfg al be psi1 psi2 beta st).H i
      = st.H i + dt * be * (al * st.dH i + q i * xi * st.I i - eta * st.H i) := rfl

lemma substage_R (cfg : Config) (al be : ℚ) (psi1 psi2 : Fin 9 → ℚ) (beta : ℚ)
    (st : RunState) (i : Fin 9) :
    (substage cfg al be psi1 psi2 beta st).R i
      = st.R i + dt * be * (al * st.dR i + w * theta * st.A i + gamma * st.I i
          + (1 - q i) * xi * st.I i + (1 - nu i) * eta * st.H i) := rfl

lemma substage_F (cfg : Config) (al be : ℚ) (psi1 psi2 : Fin 9 → ℚ) (beta : ℚ)
    (st : RunState) (i : Fin 9) :
    (substage cfg al be psi1 psi2 beta st).F i
      = st.F i + dt * be * (al * st.dF i + nu i * eta * st.H i) := rfl

lemma substage_dS (cfg : Config) (al be : ℚ) (psi1 psi2 : Fin 9 → ℚ) (beta : ℚ)
    (st : RunState) (i : Fin 9) :
    (substage cfg al be psi1 psi2 beta st).dS i
      = al * st.dS i - beta * ((∑ j, st.I j) + ∑ j, st.A j) * st.S i
        - psi1 i * st.S i + psi2 i * st.C i := rfl

lemma substage_dC (cfg : Config) (al be : ℚ) (psi1 psi2 : Fin 9 → ℚ) (beta : ℚ)
    (st : RunState) (i : Fin 9) :
    (substage cfg al be psi1 psi2 beta st).dC i
      = al * st.dC i + psi1 i * st.S i - psi2 i * st.C i := rfl

lemma substage_dE (cfg : Config) (al be : ℚ) (psi1 psi2 : Fin 9 → ℚ) (beta : ℚ)
    (st : RunState) (i : Fin 9) :
    (substage cfg al be psi1 psi2 beta st).dE i
      = al * st.dE i + beta * ((∑ j, st.I j) + ∑ j, st.A j) * st.S i
        - sigma * st.E i := rfl

lemma substage_dA (cfg : Config) (al be : ℚ) (psi1 psi2 : Fin 9 → ℚ) (beta : ℚ)
    (st : RunState) (i : Fin 9) :
    (substage cfg al be psi1 psi2 beta st).dA i
      = al * st.dA i + (1 - p) * sigma * st.E i - theta * st.A i := rfl

lemma substage_dI (cfg : Config) (al be : ℚ) (psi1 psi2 : Fin 9 → ℚ) (beta : ℚ)
    (st : RunState) (i : Fin 9) :
    (substage cfg al be psi1 psi2 beta st).dI i
      = al * st.dI i + p * sigma * st.E i + (1 - w) * theta * st.A i
        - gamma * st.I i - xi * st.I i := rfl

lemma substage_dQ (cfg : Config) (al be : ℚ) (psi1 psi2 : Fin 9 → ℚ) (beta : ℚ)
    (st : RunState) (i : Fin 9) :
    (substage cfg al be psi1 psi2 beta st).dQ i = al * st.dQ i := rfl

lemma substage_dH (cfg : Config) (al be : ℚ) (psi1 psi2 : Fin 9 → ℚ) (beta : ℚ)
    (st : RunState) (i : Fin 9) :
    (substage cfg al be psi1 psi2 beta st).dH i
      = al * st.dH i + q i * xi * st.I i - eta * st.H i := rfl

lemma substage_dR (cfg : Config) (al be : ℚ) (psi1 psi2 : Fin 9 → ℚ) (beta : ℚ)
    (st : RunState) (i : Fin 9) :
    (substage cfg al be psi1 psi2 beta st).dR i
      = al * st.dR i + w * theta * st.A i + gamma * st.I i
        + (1 - q i) * xi * st.I i + (1 - nu i) * eta * st.H i := rfl

lemma substage_dF (cfg : Config) (al be : ℚ) (psi1 psi2 : Fin 9 → ℚ) (beta : ℚ)
    (st : RunState) (i : Fin 9) :
    (substage cfg al be psi1 psi2 beta st).dF i
      = al * st.dF i + nu i * eta * st.H i := rfl

lemma stepIter_substages (cfg : Config) (st : RunState) :
    ∀ i, (stepIter cfg st).S i
      = (substage cfg (alpha_ts 2) (beta_ts 2) (RK3psi1 cfg st) (RK3psi2 cfg st) (RK3beta cfg st)
          (substage cfg (alpha_ts 1) (beta_ts 1) (RK3psi1 cfg st) (RK3psi2 cfg st) (RK3beta cfg st)
            (substage cfg (alpha_ts 0) (beta_ts 0) (RK3psi1 cfg st) (RK3psi2 cfg st) (RK3beta cfg st)
              st))).S i := fun _ => rfl

lemma stepIter_C (cfg : Config) (st : RunState) (i : Fin 9) :
    (stepIter cfg st).C i
      = (substage cfg (alpha_ts 2) (beta_ts 2) (RK3psi1 cfg st) (RK3psi2 cfg st) (RK3beta cfg st)
          (substage cfg (alpha_ts 1) (beta_ts 1) (RK3psi1 cfg st) (RK3psi2 cfg st) (RK3beta cfg st)
            (substage cfg (alpha_ts 0) (beta_ts 0) (RK3psi1 cfg st) (RK3psi2 cfg st) (RK3beta cfg st)
              st))).C i := rfl

lemma stepIter_dC (cfg : Config) (st : RunState) (i : Fin 9) :
    (stepIter cfg st).dC i
      = (substage cfg (alpha_ts 2) (beta_ts 2) (RK3psi1 cfg st) (RK3psi2 cfg st) (RK3beta cfg st)
          (substage cfg (alpha_ts 1) (beta_ts 1) (RK3psi1 cfg st) (RK3psi2 cfg st) (RK3beta cfg st)
            (substage cfg (alpha_ts 0) (beta_ts 0) (RK3psi1 cfg st) (RK3psi2 cfg st) (RK3beta cfg st)
              st))).dC i := rfl

lemma stepIter_Q (cfg : Config) (st : RunState) (i : Fin 9) :
    (stepIter cfg st).Q i
      = (substage cfg (alpha_ts 2) (beta_ts 2) (RK3psi1 cfg st) (RK3psi2 cfg st) (RK3beta cfg st)
          (substage cfg (alpha_ts 1) (beta_ts 1) (RK3psi1 cfg st) (RK3psi2 cfg st) (RK3beta cfg st)
            (substage cfg (alpha_ts 0) (beta_ts 0) (RK3psi1 cfg st) (RK3psi2 cfg st) (RK3beta cfg st)
              st))).Q i := rfl

lemma stepIter_dQ (cfg : Config) (st : RunState) (i : Fin 9) :
    (stepIter cfg st).dQ i
      = (substage cfg (alpha_ts 2) (beta_ts 2) (RK3psi1 cfg st) (RK3psi2 cfg st) (RK3beta cfg st)
          (substage cfg (alpha_ts 1) (beta_ts 1) (RK3psi1 cfg st) (RK3psi2 cfg st) (RK3beta cfg st)
            (substage cfg (alpha_ts 0) (beta_ts 0) (RK3psi1 cfg st) (RK3psi2 cfg st) (RK3beta cfg st)
              st))).dQ i := rfl

lemma stepIter_F (cfg : Config) (st : RunState) (i : Fin 9) :
    (stepIter cfg st).F i
      = (substage cfg (alpha_ts 2) (beta_ts 2) (RK3psi1 cfg st) (RK3psi2 cfg st) (RK3beta cfg st)
          (substage cfg (alpha_ts 1) (beta_ts 1) (RK3psi1 cfg st) (RK3psi2 cfg st) (RK3beta cfg st)
            (substage cfg (alpha_ts 0) (beta_ts 0) (RK3psi1 cfg st) (RK3psi2 cfg st) (RK3beta cfg st)
              st))).F i := rfl

lemma stepIter_binSum_chain (cfg : Config) (st : RunState) (i : Fin 9) :
    binSum (stepIter cfg st) i
      = binSum (substage cfg (alpha_ts 2) (beta_ts 2) (RK3psi1 cfg st) (RK3psi2 cfg st)
          (RK3beta cfg st)
          (substage cfg (alpha_ts 1) (beta_ts 1) (RK3psi1 cfg st) (RK3psi2 cfg st) (RK3beta cfg st)
            (substage cfg (alpha_ts 0) (beta_ts 0) (RK3psi1 cfg st) (RK3psi2 cfg st) (RK3beta cfg st)
              st))) i := rfl

lemma stepIter_t (cfg : Config) (st : RunState) :
    (stepIter cfg st).t = st.t + dt * beta_ts 0 * (alpha_ts 0 * st.ds + 1)
      + dt * beta_ts 1 * (alpha_ts 1 * (alpha_ts 0 * st.ds + 1) + 1)
      + dt * beta_ts 2 * (alpha_ts 2 * (alpha_ts 1 * (alpha_ts 0 * st.ds + 1) + 1) + 1) := rfl

lemma stepIter_prevT (cfg : Config) (st : RunState) : (stepIter cfg st).prevT = st.t := rfl

lemma stepIter_beta (cfg : Config) (st : RunState) : (stepIter cfg st).beta = RK3beta cfg st := rfl

lemma stepIter_sS (cfg : Config) (st : RunState) : (stepIter cfg st).sS = st.sS := rfl

/-! ## Helper lemmas -/

lemma q_nonneg (i : Fin 9) : (0:ℚ) ≤ q i := by
  fin_cases i <;> norm_num [q, hospitalization_fraction_age]

lemma nu_nonneg (i : Fin 9) : (0:ℚ) ≤ nu i := by
  fin_cases i <;> norm_num [nu, fatality_rate_age]

/-- A full step advances the simulation time by exactly `dt`: the stage
    coefficient `alpha_ts 0 = 0` resets the carried `ds`, and the three stage
    fractions `1/3 + 5/12 + 1/4` sum to 1 in exact arithmetic. -/
lemma stepIter_t_dt (cfg : Config) (st : RunState) : (stepIter cfg st).t = st.t + dt := by
  rw [stepIter_t]
  norm_num [alpha_ts, beta_ts]
  ring

lemma runState_t (cfg : Config) (n : ℕ) :
    (runState cfg n).t = (initState cfg).t + n * dt := by
  induction n with
  | zero => simp [runState]
  | succ k ih =>
      show (stepIter cfg (runState cfg k)).t = _
      rw [stepIter_t_dt, ih]
      push_cast
      ring

/-- The susceptible total `sS` is computed once before the loop and never
    reassigned inside it. -/
lemma runState_sS (cfg : Config) (n : ℕ) :
    (runState cfg n).sS = (initState cfg).sS := by
  induction n with
  | zero => rfl
  | succ k ih => rw [runState, stepIter_sS, ih]

lemma RK3psi1_zero (cfg : Config) (st : RunState) (h : cfg.ampl1 = 0) (i : Fin 9) :
    RK3psi1 cfg st i = 0 := by
  simp [RK3psi1, get_kronecker_delta, h]

lemma RK3psi2_zero (cfg : Config) (st : RunState) (h : cfg.ampl2 = 0) (i : Fin 9) :
    RK3psi2 cfg st i = 0 := by
  simp [RK3psi2, get_kronecker_delta, h]

lemma runState_Q_invariant (cfg : Config) (n : ℕ) :
    (∀ i, (runState cfg n).Q i = 0) ∧ (∀ i, (runState cfg n).dQ i = 0) := by
  induction n with
  | zero => exact ⟨fun i => rfl, fun i => rfl⟩
  | succ k ih =>
      obtain ⟨hQ, hdQ⟩ := ih
      constructor <;> intro i
      · show (stepIter cfg (runState cfg k)).Q i = 0
        rw [stepIter_Q]
        simp [substage_Q, substage_dQ, hQ i, hdQ i]
      · show (stepIter cfg (runState cfg k)).dQ i = 0
        rw [stepIter_dQ]
        simp [substage_dQ, hdQ i]

lemma runState_C_invariant (cfg : Config) (h1 : cfg.ampl1 = 0) (h2 : cfg.ampl2 = 0) (n : ℕ) :
    (∀ i, (runState cfg n).C i = 0) ∧ (∀ i, (runState cfg n).dC i = 0) := by
  induction n with
  | zero => exact ⟨fun i => rfl, fun i => rfl⟩
  | succ k ih =>
      obtain ⟨hC, hdC⟩ := ih
      have hp1 := RK3psi1_zero cfg (runState cfg k) h1
      have hp2 := RK3psi2_zero cfg (runState cfg k) h2
      constructor <;> intro i
      · show (stepIter cfg (runState cfg k)).C i = 0
        rw [stepIter_C]
        simp [substage_C, substage_dC, hC i, hdC i, hp1 i, hp2 i]
      · show (stepIter cfg (runState cfg k)).dC i = 0
        rw [stepIter_dC]
        simp [substage_C, substage_dC, hC i, hdC i, hp1 i, hp2 i]

lemma npInterp_right_clamp (x : ℚ) :
    ∀ (xp fp : List ℚ), xp.length = fp.length → xp ≠ [] → (∀ y ∈ xp, y < x) →
      npInterp x xp fp = fp.getLastD 0 := by
  intro xp
  induction xp with
  | nil => intro fp _ hne _; exact absurd rfl hne
  | cons x0 xtl ih =>
      intro fp hlen _ hall
      match fp, hlen with
      | f0 :: ftl, hlen =>
        match xtl, ftl, hlen with
        | [], [], _ => rfl
        | x1 :: xtl2, f1 :: ftl2, hlen =>
            have hx0 : x0 < x := hall x0 (List.mem_cons_self _ _)
            have hx1 : x1 < x := hall x1 (List.mem_cons_of_mem _ (List.mem_cons_self _ _))
            rw [npInterp, if_neg (by linarith), if_neg (by linarith),
              ih (f1 :: ftl2) (by simpa using hlen) (by simp)
                (fun y hy => hall y (List.mem_cons_of_mem _ hy))]
            simp [List.getLastD_cons]

lemma val_four_fin_nine : ((4 : Fin 9) : ℕ) = 4 := rfl

lemma runState_one_beta (cfg : Config) : (runState cfg 1).beta = RK3beta cfg (initState cfg) := rfl

/-- Every sub-stage scales the per-bin accumulator total by its `alpha`
    coefficient: all inter-compartment flow terms cancel exactly. -/
lemma substage_accSum (cfg : Config) (al be : ℚ) (psi1 psi2 : Fin 9 → ℚ) (beta : ℚ)
    (st : RunState) (i : Fin 9) :
    accSum (substage cfg al be psi1 psi2 beta st) i = al * accSum st i := by
  simp only [accSum, substage_dS, substage_dC, substage_dE, substage_dA, substage_dI,
    substage_dQ, substage_dH, substage_dR, substage_dF]
  ring

/-- Every sub-stage changes the per-bin compartment total by
    `dt*be*al` times the incoming accumulator total. -/
lemma substage_binSum (cfg : Config) (al be : ℚ) (psi1 psi2 : Fin 9 → ℚ) (beta : ℚ)
    (st : RunState) (i : Fin 9) :
    binSum (substage cfg al be psi1 psi2 beta st) i
      = binSum st i + dt * be * (al * accSum st i) := by
  simp only [binSum, accSum, substage_S, substage_C, substage_E, substage_A, substage_I,
    substage_Q, substage_H, substage_R, substage_F]
  ring

/-- One full RK3 step preserves every per-bin compartment total exactly, with
    no hypothesis on the state: the first stage coefficient `alpha_ts 0 = 0`
    zeroes the accumulator totals and every flow term cancels. -/
lemma stepIter_binSum (cfg : Config) (st : RunState) (i : Fin 9) :
    binSum (stepIter cfg st) i = binSum st i := by
  rw [stepIter_binSum_chain]
  simp only [substage_binSum, substage_accSum]
  norm_num [alpha_ts]

/-- Per-bin mass is conserved along the whole run: every recorded per-bin
    compartment total equals the initial one (in exact arithmetic). -/
lemma runState_binSum (cfg : Config) (n : ℕ) (i : Fin 9) :
    binSum (runState cfg n) i = binSum (initState cfg) i := by
  induction n with
  | zero => rfl
  | succ k ih => rw [runState, stepIter_binSum, ih]

/-! ## Claim theorems -/

/-- Claim C1 (code bug witness): the seeded initial state violates per-bin mass
    conservation.  On the concrete run `cfg0` (uniform pyramid, bin weight 1/9,
    seed `I0 = 1/17468` in bin 4), the seeding `S = (1-C-E-A-I-Q-H-R-F)*ni` of
    source line 699 multiplies the deficit by the bin weight instead of
    subtracting it, so bin 4 starts with compartment total
    `1/9 + (8/9)*I0 = 4369/39303`, not its population weight `1/9` — even
    though every RK3 step thereafter preserves the (wrong) totals exactly
    (`runState_binSum`). -/
theorem C1_seeded_initial_state_breaks_mass :
    binSum (initState cfg0) 4 = 4369/39303
    ∧ ni cfg0 4 = 1/9
    ∧ binSum (initState cfg0) 4 ≠ ni cfg0 4 := by
  refine ⟨?_, ?_, ?_⟩ <;>
    norm_num [binSum, initState, ni, I0, fatality_rate, Npop, time_D0, iD0, cfg0,
      Fin.sum_univ_succ, fatality_rate_age, List.findIdx, List.findIdx.go, List.any,
      Fin.ext_iff, Fin.val_succ, val_four_fin_nine]

/-- Claim C2 (counterexample): on the concrete run `cfg0`, the transmission
    rate actually used for step 0 (kept by source line 782) differs from the
    rate the claim describes — the interpolated death-rate derivative divided
    by `(Symptomatic+Asymptomatic) * (sum of fatality_rate_age * S)` at the
    current state (source line 781, which is immediately overwritten). -/
theorem C2_calibration_beta_cex :
    (runState cfg0 1).beta ≠ betaSpecC2 cfg0 (runState cfg0 0) := by
  rw [runState_one_beta]
  show RK3beta cfg0 (initState cfg0) ≠ betaSpecC2 cfg0 (initState cfg0)
  norm_num [RK3beta, RK3betaCalib, betaSpecC2, initState, npInterp, tpast, dDdt, npGradient,
    npGradientAux, casesList, iD0, time_D0, Npop, fatality_rate, I0, ni, cfg0, tmu, Tdeath,
    Fin.sum_univ_succ, fatality_rate_age, List.findIdx, List.findIdx.go, List.any,
    Fin.ext_iff, Fin.val_succ, val_four_fin_nine]

/-- Claim C2 (amended): in the calibration regime (retarded time negative) the
    transmission rate used for the step equals the historical death-rate
    derivative interpolated at the retarded time divided by
    `(sA + sI) * sS * fatality_rate`, where `sA, sI` are the tracked
    asymptomatic/symptomatic totals carried in the loop state (last refreshed
    at the start of the previous step's final sub-stage), `sS` is the initial
    total susceptible fraction (computed once before the loop and never
    updated), and `fatality_rate` is the scalar age-weighted fatality rate. -/
theorem C2_calibration_beta_used (cfg : Config) (n : ℕ)
    (h : (runState cfg n).t + tmu < 0) :
    (runState cfg (n+1)).beta
      = 1/((runState cfg n).sA + (runState cfg n).sI) * (1/(initState cfg).sS)
        * (1/fatality_rate cfg)
        * npInterp ((runState cfg n).t + tmu) (tpast cfg) (dDdt cfg) := by
  show (stepIter cfg (runState cfg n)).beta = _
  rw [stepIter_beta, RK3beta, if_pos h, RK3betaCalib, runState_sS]

/-- Claim C2 (witness): the amended statement instantiated at step 0 of the
    concrete run `cfg0`, whose retarded start time is -14 < 0. -/
theorem C2_calibration_beta_used_witness :
    (runState cfg0 0).t + tmu < 0
    ∧ (runState cfg0 1).beta
      = 1/((runState cfg0 0).sA + (runState cfg0 0).sI) * (1/(initState cfg0).sS)
        * (1/fatality_rate cfg0)
        * npInterp ((runState cfg0 0).t + tmu) (tpast cfg0) (dDdt cfg0) := by
  have h : (runState cfg0 0).t + tmu < 0 := by
    norm_num [runState, initState, time_D0, iD0, cfg0, tmu, Tdeath,
      List.findIdx, List.findIdx.go, List.any]
  exact ⟨h, C2_calibration_beta_used cfg0 0 h⟩

/-- Claim C3 (counterexample): on the concrete run `cfg3` the timestep actually
    used (the constant `dt = 29/56` fixed before the loop) is not
    `0.5 * min(1/beta, 1/sigma, 1/eta, 1/theta, 1/gamma, 1/xi)` evaluated at
    the transmission rate of step 0, and it exceeds that bound — so `dt` is
    neither recomputed per step nor kept below half the fastest active
    timescale. -/
theorem C3_adaptive_dt_cex :
    dt ≠ dtSpecC3 ((runState cfg3 1).beta)
    ∧ dtSpecC3 ((runState cfg3 1).beta) < dt := by
  rw [runState_one_beta]
  constructor <;>
    norm_num [RK3beta, RK3betaCalib, dtSpecC3, initState, npInterp, tpast, dDdt, npGradient,
      npGradientAux, casesList, iD0, time_D0, Npop, fatality_rate, I0, ni, cfg3, tmu, Tdeath,
      Fin.sum_univ_succ, fatality_rate_age, List.findIdx, List.findIdx.go, List.any,
      Fin.ext_iff, Fin.val_succ, val_four_fin_nine,
      dt, tau_beta, beta0, Cdt, R0, gamma, sigma, eta, xi, theta, mu,
      Tincubation, Tinfection, Thospitalization, Thospitalized, Tdeath]

/-- Claim C3 (amended): the timestep is computed once, before the loop, as
    `Cdt * (1/(R0*gamma))` — one half of the timescale of the initial
    transmission rate only, with no minimum over the other rates — and every
    iteration of the run advances time by this same constant `dt`. -/
theorem C3_dt_constant :
    dt = Cdt * (1 / (R0 * gamma))
    ∧ ∀ (cfg : Config) (n : ℕ), (runState cfg (n+1)).t = (runState cfg n).t + dt :=
  ⟨rfl, fun cfg n => stepIter_t_dt cfg (runState cfg n)⟩

/-- Claim C4 (counterexample): when the previous time sits exactly on the
    trigger (`previous_time = trigger_time`) and the current time is past it,
    `get_kronecker_delta` returns zero, while the claim says the impulse fires;
    the two functions differ at `time = 1, trigger = 0, previous = 0`. -/
theorem C4_boundary_cex :
    get_kronecker_delta 1 0 0 ![1, 1, 1, 1, 1, 1, 1, 1, 1] 1
      ≠ get_kronecker_delta_spec 1 0 0 ![1, 1, 1, 1, 1, 1, 1, 1, 1] 1 := by
  intro hfun
  have h3 := congrFun hfun 3
  norm_num [get_kronecker_delta, get_kronecker_delta_spec] at h3

/-- Claim C4 (amended): the impulse returns `amplitude/step_size`
    component-wise exactly when `time > trigger_time` and
    `previous_time < trigger_time` (strictly — the boundary case
    `previous_time = trigger_time` does not fire), and returns zero
    otherwise. -/
theorem C4_impulse_characterization (time t0 tt : ℚ) (ampl : Fin 9 → ℚ) (dtv : ℚ) (i : Fin 9) :
    (time > t0 ∧ tt < t0 → get_kronecker_delta time t0 tt ampl dtv i = ampl i / dtv)
    ∧ (¬(time > t0 ∧ tt < t0) → get_kronecker_delta time t0 tt ampl dtv i = 0) := by
  constructor <;> intro h
  · obtain ⟨h1, h2⟩ := h
    rw [get_kronecker_delta, if_pos ⟨by linarith, by linarith⟩]
    ring
  · rw [get_kronecker_delta,
      if_neg (fun hc => h ⟨by linarith [hc.1], by linarith [hc.2]⟩)]
    ring

/-- Claim C4 (witness): the amended characterization instantiated at a firing
    input (`time = 2 > 0 = trigger`, `previous = -1 < 0`) in bin 3. -/
theorem C4_impulse_characterization_witness :
    ((2:ℚ) > 0 ∧ (-1:ℚ) < 0)
    ∧ get_kronecker_delta 2 0 (-1) ![1, 1, 1, 1, 1, 1, 1, 1, 1] 1 3
        = ![1, 1, 1, 1, 1, 1, 1, 1, 1] 3 / 1 := by
  have h : (2:ℚ) > 0 ∧ (-1:ℚ) < 0 := by norm_num
  exact ⟨h, (C4_impulse_characterization 2 0 (-1) ![1, 1, 1, 1, 1, 1, 1, 1, 1] 1 3).1 h⟩

/-- Claim C5 (counterexample): with the lockdown date set to "no data" (the
    empty string, modelled as `none`) and a nonzero lockdown amplitude, the
    lockdown impulse is NOT zero at every step — on the concrete run `cfg5`
    the trigger defaults to time 0 ("today") and the impulse fires at
    iteration 55, the step whose interval straddles today. -/
theorem C5_no_data_lockdown_fires_cex :
    cfg5.lockdownDate = none ∧ RK3psi1 cfg5 (runState cfg5 55) 4 ≠ 0 := by
  refine ⟨rfl, ?_⟩
  have hinit : (initState cfg5).t = -28 := by
    norm_num [initState, time_D0, iD0, cfg5, tmu, Tdeath,
      List.findIdx, List.findIdx.go, List.any]
  have ht : (runState cfg5 55).t = 27/56 := by
    rw [runState_t, hinit]
    norm_num [dt, tau_beta, beta0, Cdt, R0, gamma, Tinfection]
  have hp : (runState cfg5 55).prevT = -1/28 := by
    show (stepIter cfg5 (runState cfg5 54)).prevT = -1/28
    rw [stepIter_prevT, runState_t, hinit]
    norm_num [dt, tau_beta, beta0, Cdt, R0, gamma, Tinfection]
  rw [RK3psi1, ht, hp]
  norm_num [get_kronecker_delta, tlockdownOf, cfg5, dt, tau_beta, beta0, Cdt, R0, gamma,
    Tinfection]

/-- Claim C5 (amended): a release date of "no data" is mapped to the sentinel
    `1e30` and its impulse is zero at every step whose time does not exceed
    that sentinel (so it never fires at any reachable time); a lockdown date of
    "no data", by contrast, is mapped to time 0 — today — not to infinity. -/
theorem C5_release_no_data_never_fires (cfg : Config) (st : RunState) (i : Fin 9)
    (hrel : cfg.releaseDate = none) (ht : st.t ≤ 10^30) :
    RK3psi2 cfg st i = 0 ∧ tlockdownOf none = 0 := by
  refine ⟨?_, rfl⟩
  rw [RK3psi2, hrel]
  rw [get_kronecker_delta]
  rw [if_neg (fun hc => absurd hc.1 (by simp [treleaseOf]; linarith))]
  ring

/-- Claim C5 (witness): the amended statement instantiated at the initial
    state of the concrete run `cfg0` (whose release date is "no data"). -/
theorem C5_release_no_data_never_fires_witness :
    cfg0.releaseDate = none
    ∧ (initState cfg0).t ≤ 10^30
    ∧ RK3psi2 cfg0 (initState cfg0) 0 = 0
    ∧ tlockdownOf none = 0 := by
  have h1 : cfg0.releaseDate = none := rfl
  have h2 : (initState cfg0).t ≤ 10^30 := by
    norm_num [initState, time_D0, iD0, cfg0, tmu, Tdeath,
      List.findIdx, List.findIdx.go, List.any]
  obtain ⟨ha, hb⟩ := C5_release_no_data_never_fires cfg0 (initState cfg0) 0 h1 h2
  exact ⟨h1, h2, ha, hb⟩

/-- Claim C6 (counterexample): a retarded time of -3, strictly outside the
    historical range [-14, -5] and inside the calibration regime (-3 < 0),
    does not fail loudly: the calibration computation of source line 782
    silently clamps the interpolation to the right endpoint derivative 7/100
    and returns the well-defined value 7. -/
theorem C6_silent_clamp_cex :
    (-5:ℚ) < -3 ∧ (-3:ℚ) < 0
    ∧ RK3betaCalib (1/2) (1/2) 1 (1/100) (-3) [-14, -5] [3/100, 7/100] = 7 := by
  refine ⟨by norm_num, by norm_num, ?_⟩
  norm_num [RK3betaCalib, npInterp]

/-- Claim C6 (amended): out-of-range query points are silently clamped by the
    interpolation, never rejected — below the grid the first sample value is
    returned, above the grid the last sample value is returned; no error path
    exists. -/
theorem C6_interp_clamps (x x0 x1 f0 f1 : ℚ) (xs fs : List ℚ)
    (hlen : xs.length = fs.length) :
    (x ≤ x0 → npInterp x (x0 :: x1 :: xs) (f0 :: f1 :: fs) = f0)
    ∧ ((∀ y ∈ x0 :: x1 :: xs, y < x) →
        npInterp x (x0 :: x1 :: xs) (f0 :: f1 :: fs) = (f0 :: f1 :: fs).getLastD 0) := by
  constructor
  · intro h
    rw [npInterp, if_pos h]
  · intro hall
    exact npInterp_right_clamp x (x0 :: x1 :: xs) (f0 :: f1 :: fs) (by simpa using hlen)
      (by simp) hall

/-- Claim C6 (witness): the amended clamping statement instantiated on the
    two-sample grid [1, 2] with values [10, 20]: a query at 0 (below the grid)
    returns 10, a query at 5 (above the grid) returns 20. -/
theorem C6_interp_clamps_witness :
    (0:ℚ) ≤ 1
    ∧ npInterp 0 [1, 2] [10, 20] = 10
    ∧ npInterp 5 [1, 2] [10, 20] = 20 := by
  have hleft := (C6_interp_clamps 0 1 2 10 20 [] [] rfl).1 (by norm_num)
  have hall : ∀ y ∈ ((1:ℚ) :: 2 :: ([] : List ℚ)), y < 5 := by
    intro y hy
    simp only [List.mem_cons, List.not_mem_nil, or_false] at hy
    rcases hy with rfl | rfl <;> norm_num
  have hright := (C6_interp_clamps 5 1 2 10 20 [] [] rfl).2 hall
  exact ⟨by norm_num, hleft, hright⟩

/-- Claim C7: one full RK3 step never decreases any bin's Fatalities
    compartment, given that the compartment fractions of that bin are
    non-negative at the start of the step: the accumulated fatality flow is
    `nu*eta` times a positive combination of the hospitalized values of the
    three sub-stages, which stay non-negative at the fixed step size
    `dt = 29/56` and the fixed rates of the program. -/
theorem C7_fatalities_monotone (cfg : Config) (st : RunState) (i : Fin 9)
    (_hS : 0 ≤ st.S i) (_hC : 0 ≤ st.C i) (hE : 0 ≤ st.E i) (hA : 0 ≤ st.A i)
    (hI : 0 ≤ st.I i) (_hQ : 0 ≤ st.Q i) (hH : 0 ≤ st.H i) (_hR : 0 ≤ st.R i)
    (_hF : 0 ≤ st.F i) :
    st.F i ≤ (stepIter cfg st).F i := by
  have hq := q_nonneg i
  have hnu := nu_nonneg i
  rw [stepIter_F]
  simp only [substage_F, substage_dF, substage_H, substage_dH, substage_I]
  norm_num [alpha_ts, beta_ts, dt, tau_beta, beta0, Cdt, R0, gamma, sigma, eta, xi, theta, mu,
    p, w, Tincubation, Tinfection, Thospitalization, Thospitalized, Tdeath]
  nlinarith [mul_nonneg hnu hH, mul_nonneg (mul_nonneg hnu hq) hI,
    mul_nonneg (mul_nonneg hnu hq) hE, mul_nonneg (mul_nonneg hnu hq) hA]

/-- Claim C7 (witness): the monotonicity theorem instantiated at the all-zero
    state (all nine compartment fractions of bin 2 are non-negative there). -/
theorem C7_fatalities_monotone_witness :
    (0:ℚ) ≤ stZero.S 2 ∧ (0:ℚ) ≤ stZero.C 2 ∧ (0:ℚ) ≤ stZero.E 2 ∧ (0:ℚ) ≤ stZero.A 2
    ∧ (0:ℚ) ≤ stZero.I 2 ∧ (0:ℚ) ≤ stZero.Q 2 ∧ (0:ℚ) ≤ stZero.H 2 ∧ (0:ℚ) ≤ stZero.R 2
    ∧ (0:ℚ) ≤ stZero.F 2
    ∧ stZero.F 2 ≤ (stepIter cfg0 stZero).F 2 :=
  ⟨le_refl 0, le_refl 0, le_refl 0, le_refl 0, le_refl 0, le_refl 0, le_refl 0, le_refl 0,
    le_refl 0,
    C7_fatalities_monotone cfg0 stZero 2 (le_refl 0) (le_refl 0) (le_refl 0) (le_refl 0)
      (le_refl 0) (le_refl 0) (le_refl 0) (le_refl 0) (le_refl 0)⟩

/-- Claim C8: when both impulse amplitude vectors are zero, the Confined
    compartment of every age bin is exactly zero after every completed
    iteration of the run: it starts at zero and both its derivative
    contributions (`psi1*S` and `psi2*C`) vanish identically. -/
theorem C8_confined_identically_zero (cfg : Config)
    (h1 : cfg.ampl1 = 0) (h2 : cfg.ampl2 = 0) (n : ℕ) (i : Fin 9) :
    (runState cfg n).C i = 0 :=
  (runState_C_invariant cfg h1 h2 n).1 i

/-- Claim C8 (witness): the no-lockdown reduction instantiated on the concrete
    run `cfg0` (both amplitude vectors zero) after 3 steps, bin 5. -/
theorem C8_confined_identically_zero_witness :
    cfg0.ampl1 = 0 ∧ cfg0.ampl2 = 0 ∧ (runState cfg0 3).C 5 = 0 := by
  have h1 : cfg0.ampl1 = 0 := by funext i; fin_cases i <;> rfl
  have h2 : cfg0.ampl2 = 0 := by funext i; fin_cases i <;> rfl
  exact ⟨h1, h2, C8_confined_identically_zero cfg0 h1 h2 3 5⟩

/-- Claim C9: the Quarantined compartment is exactly zero for every run, every
    completed iteration and every age bin: it is initialized to zero and its
    accumulator is only ever scaled by the stage coefficients (the `dQdt` flow
    terms are commented out in the source), so every recorded Quarantined
    value — and hence every Quarantined file record written from it — is
    zero. -/
theorem C9_quarantined_identically_zero (cfg : Config) (n : ℕ) (i : Fin 9) :
    (runState cfg n).Q i = 0 :=
  (runState_Q_invariant cfg n).1 i

/-- Claim C10: each full integration step advances simulation time by exactly
    `dt`: the three sub-stage increments
    `beta_ts[s]*dt*ds[s]` with `ds = 1, alpha_2+1, alpha_3*(alpha_2+1)+1`
    sum to `(1/3 + 5/12 + 1/4)*dt = dt` in exact rational arithmetic. -/
theorem C10_step_advances_dt (cfg : Config) (st : RunState) :
    (stepIter cfg st).t
      = st.t + (beta_ts 0 * dt * 1 + beta_ts 1 * dt * (alpha_ts 1 + 1)
          + beta_ts 2 * dt * (alpha_ts 2 * (alpha_ts 1 + 1) + 1))
    ∧ beta_ts 0 * dt * 1 + beta_ts 1 * dt * (alpha_ts 1 + 1)
          + beta_ts 2 * dt * (alpha_ts 2 * (alpha_ts 1 + 1) + 1)
        = (1/3 + 5/12 + 1/4) * dt
    ∧ (1/3 + 5/12 + 1/4) * dt = dt := by
  refine ⟨?_, ?_, by ring⟩
  · rw [stepIter_t]
    norm_num [alpha_ts, beta_ts]
    ring
  · norm_num [alpha_ts, beta_ts]
    ring

end Covid19SEIR
